import Mathlib

/-!
Verification of the configuration loader of `dominant-strategies/mesh-quai`
(`configuration/configuration.go`) and the address-checksum helper of the
`ethereum` package, as a shallow embedding in Lean 4.

The environment is modelled as a total map from variable names to string
values (a variable that is absent reads as the empty string, exactly as
`os.Getenv` behaves).  Go's `(*Configuration, error)` return pair is
modelled as `Option Configuration × Option String`, mirroring the two
return values literally.
-/

namespace MeshQuai

/-- The implementation mode enumeration (`Mode` in configuration.go). -/
inductive Mode where
  | online
  | offline
deriving DecidableEq

/-- `types.NetworkIdentifier` from the rosetta SDK: a pair of a blockchain
name and a network name. -/
structure NetworkIdentifier where
  blockchain : String
  network : String
deriving DecidableEq

/-- `types.BlockIdentifier` from the rosetta SDK: an index and a hash. -/
structure BlockIdentifier where
  index : Int
  hash : String
deriving DecidableEq

/-- The three chain-parameter sets of the external `go-quai` `params`
package, modelled as opaque tokens (their contents are passed through
unmodified by the loader, so only their identity matters). -/
inductive ChainConfig where
  | progpowColosseum
  | progpowOrchard
  | progpowLocal
deriving DecidableEq

/-- Modelled from the spec: the `ethereum` package's single blockchain-name
constant (`ethereum.Blockchain`); the package is not under src/, and only
the fact that one shared constant is used matters to the claims. -/
def Blockchain : String := "Quai"

/-- Modelled from the spec: `ethereum.MainnetNetwork`, the production
network name (the spec's end-to-end example shows "MAINNET"). -/
def MainnetNetwork : String := "MAINNET"

/-- Modelled from the spec: `ethereum.OrchardNetwork`, the test-network
name. -/
def OrchardNetwork : String := "ORCHARD"

/-- Modelled from the spec: `ethereum.DevNetwork`, the local/dev network
name. -/
def DevNetwork : String := "DEV"

/-- Modelled from the spec: `ethereum.MainnetGenesisBlockIdentifier`, the
fixed production genesis identifier; the spec states it is non-null and
distinct from the test-network one. -/
def MainnetGenesisBlockIdentifier : Option BlockIdentifier :=
  some ⟨0, "MAINNET-GENESIS-HASH"⟩

/-- Modelled from the spec: `ethereum.OrchardGenesisBlockIdentifier`, the
fixed test-network genesis identifier; non-null and distinct from the
production one. -/
def OrchardGenesisBlockIdentifier : Option BlockIdentifier :=
  some ⟨0, "ORCHARD-GENESIS-HASH"⟩

/-- Modelled from the spec: `ethereum.MainnetGoQuaiArguments`, the
production node-launch arguments. -/
def MainnetGoQuaiArguments : String := "--mainnet-args"

/-- Modelled from the spec: `ethereum.OrchardGoQuaiArguments`, the
test-network node-launch arguments. -/
def OrchardGoQuaiArguments : String := "--orchard-args"

/-- Modelled from the spec: `ethereum.LocalGoQuaiArguments`, the local
node-launch arguments. -/
def LocalGoQuaiArguments : String := "--local-args"

/-- `DefaultGoQuaiURL` from configuration.go. -/
def DefaultGoQuaiURL : String := "http://localhost:8545"

/-- The `Configuration` record from configuration.go. -/
structure Configuration where
  mode : Mode
  network : NetworkIdentifier
  genesisBlockIdentifier : Option BlockIdentifier
  goQuaiURL : String
  remoteGoQuai : Bool
  port : Int
  goQuaiArguments : String
  skipGoQuaiAdmin : Bool
  params : ChainConfig
deriving DecidableEq

/-- Accumulate a run of ASCII decimal digits into a natural number;
`none` as soon as a non-digit appears.  Helper for `goAtoi`. -/
def goDigits : List Char → Nat → Option Nat
  | [], acc => some acc
  | c :: cs, acc =>
      if c.isDigit then goDigits cs (acc * 10 + (c.toNat - 48)) else none

/-- Go's `strconv.Atoi` (base-10 `ParseInt` into a 64-bit int): an optional
leading sign followed by at least one digit; values outside the signed
64-bit range are a range error.  The error strings are the ones
`strconv.NumError.Error()` renders. -/
def goAtoi (s : String) : Except String Int :=
  let syntaxMsg := "strconv.Atoi: parsing \"" ++ s ++ "\": invalid syntax"
  let rangeMsg := "strconv.Atoi: parsing \"" ++ s ++ "\": value out of range"
  match s.toList with
  | [] => .error syntaxMsg
  | c :: cs =>
    let signDigits : Bool × List Char :=
      if c = '-' then (true, cs)
      else if c = '+' then (false, cs)
      else (false, c :: cs)
    if signDigits.2.isEmpty then .error syntaxMsg
    else
      match goDigits signDigits.2 0 with
      | none => .error syntaxMsg
      | some n =>
        if signDigits.1 then
          if n ≤ 9223372036854775808 then .ok (-(n : Int)) else .error rangeMsg
        else
          if n ≤ 9223372036854775807 then .ok (n : Int) else .error rangeMsg

/-- Go's `strconv.ParseBool`: exactly twelve accepted tokens; anything else
is a syntax error (rendered as `strconv.NumError.Error()` does). -/
def goParseBool (s : String) : Except String Bool :=
  match s with
  | "1" | "t" | "T" | "TRUE" | "true" | "True" => .ok true
  | "0" | "f" | "F" | "FALSE" | "false" | "False" => .ok false
  | _ => .error ("strconv.ParseBool: parsing \"" ++ s ++ "\": invalid syntax")

/-- The mode switch of `LoadConfiguration` (configuration.go lines
107-117): `switch modeValue` over "ONLINE", "OFFLINE", "" and default. -/
def loadMode (modeValue : String) : Except String Mode :=
  if modeValue = "ONLINE" then .ok .online
  else if modeValue = "OFFLINE" then .ok .offline
  else if modeValue = "" then .error "MODE must be populated"
  else .error (modeValue ++ " is not a valid mode")

/-- The network switch of `LoadConfiguration` (configuration.go lines
119-149): resolves the network identifier, genesis block identifier, chain
parameters and node-launch arguments from the static per-network table. -/
def loadNetwork (networkValue : String) :
    Except String (NetworkIdentifier × Option BlockIdentifier × ChainConfig × String) :=
  if networkValue = "MAINNET" then
    .ok (⟨Blockchain, MainnetNetwork⟩, MainnetGenesisBlockIdentifier,
      .progpowColosseum, MainnetGoQuaiArguments)
  else if networkValue = "ORCHARD" then
    .ok (⟨Blockchain, OrchardNetwork⟩, OrchardGenesisBlockIdentifier,
      .progpowOrchard, OrchardGoQuaiArguments)
  else if networkValue = "LOCAL" then
    .ok (⟨Blockchain, DevNetwork⟩, none, .progpowLocal, LocalGoQuaiArguments)
  else if networkValue = "" then .error "NETWORK must be populated"
  else .error (networkValue ++ " is not a valid network")

/-- The node-URL block of `LoadConfiguration` (configuration.go lines
151-156): returns `(RemoteGoQuai, GoQuaiURL)`. -/
def resolveGoQuaiURL (envGethURL : String) : Bool × String :=
  if 0 < envGethURL.length then (true, envGethURL)
  else (false, DefaultGoQuaiURL)

/-- The admin-skip block of `LoadConfiguration` (configuration.go lines
158-166): empty means `false`, anything else goes through
`strconv.ParseBool` and a parse failure aborts with a wrapped error. -/
def loadSkipGoQuaiAdmin (envSkipGethAdmin : String) : Except String Bool :=
  if 0 < envSkipGethAdmin.length then
    match goParseBool envSkipGethAdmin with
    | .error e =>
        .error (e ++ ": unable to parse SKIP_GO_QUAI_ADMIN " ++ envSkipGethAdmin)
    | .ok b => .ok b
  else .ok false

/-- The port block of `LoadConfiguration` (configuration.go lines
168-177): empty aborts with "PORT must be populated"; then `strconv.Atoi`
runs and the result is rejected unless it is strictly positive.  When
`Atoi` itself failed the abort message wraps its error; when the parsed
value is non-positive the wrapped error is nil and `fmt` renders the `%w`
verb as `%!w(<nil>)`. -/
def loadPort (portValue : String) : Except String Int :=
  if portValue.length = 0 then .error "PORT must be populated"
  else
    match goAtoi portValue with
    | .error e => .error (e ++ ": unable to parse port " ++ portValue)
    | .ok port =>
      if port ≤ 0 then .error ("%!w(<nil>): unable to parse port " ++ portValue)
      else .ok port

/-- `LoadConfiguration` from configuration.go.  The environment is passed
explicitly; each `env "X"` is the `os.Getenv("X")` of the source.  The Go
function returns the pair `(*Configuration, error)`; every abort returns
`(none, some message)` and success returns `(some config, none)`.  The
blocks run in source order: mode, network, node URL, admin skip, port. -/
def LoadConfiguration (env : String → String) :
    Option Configuration × Option String :=
  match loadMode (env "MODE") with
  | .error e => (none, some e)
  | .ok mode =>
    match loadNetwork (env "NETWORK") with
    | .error e => (none, some e)
    | .ok (network, genesis, chainParams, args) =>
      let remoteURL := resolveGoQuaiURL (env "GOQUAI")
      match loadSkipGoQuaiAdmin (env "SKIP_GO_QUAI_ADMIN") with
      | .error e => (none, some e)
      | .ok skip =>
        match loadPort (env "PORT") with
        | .error e => (none, some e)
        | .ok port =>
          (some ⟨mode, network, genesis, remoteURL.2, remoteURL.1, port,
            args, skip, chainParams⟩, none)

/-- An environment assigning the five variables the loader reads; every
other variable reads as empty. -/
def baseEnv (mode network goquai skipAdmin port : String) : String → String :=
  fun name =>
    if name = "MODE" then mode
    else if name = "NETWORK" then network
    else if name = "GOQUAI" then goquai
    else if name = "SKIP_GO_QUAI_ADMIN" then skipAdmin
    else if name = "PORT" then port
    else ""

/-! ### The address-checksum helper of the ethereum package -/

/-- `common.Location` of the external go-quai library, modelled by its
byte contents (opaque to the code under verification). -/
structure Location where
  bytes : List Nat
deriving DecidableEq

/-- `common.Address` of the external go-quai library, modelled by its
byte contents. -/
structure Address where
  bytes : List Nat
deriving DecidableEq

/-- The zero value `common.Address{}`. -/
def Address.zero : Address := ⟨List.replicate 20 0⟩

/-- `common.MixedcaseAddress` of the external go-quai library: the parsed
address (its `Address()` accessor) together with the original text. -/
structure MixedcaseAddress where
  address : Address
  original : String
deriving DecidableEq

/-- `ChecksumAddress` from the ethereum package: a thin wrapper around the
external `common.NewMixedcaseAddressFromString`, which is passed in as the
`parse` argument (it belongs to the go-quai library, not to this
repository).  On a parse error it returns the zero address and `false`;
otherwise the parsed address and `true`. -/
def ChecksumAddress (parse : String → Location → Except String MixedcaseAddress)
    (address : String) (location : Location) : Address × Bool :=
  match parse address location with
  | .error _ => (Address.zero, false)
  | .ok addr => (addr.address, true)

/-- `MustChecksum` from the ethereum package: `log.Fatalf` terminates the
process when the checksum conversion fails, modelled as `none`. -/
def MustChecksum (parse : String → Location → Except String MixedcaseAddress)
    (address : String) (location : Location) : Option Address :=
  let r := ChecksumAddress parse address location
  if !r.2 then none else some r.1

/-! ### General lemmas about the loader's blocks -/

/-- A string of length zero is the empty string. -/
theorem string_eq_empty_of_length (s : String) (h : s.length = 0) : s = "" := by
  cases s with
  | mk data =>
    cases data with
    | nil => rfl
    | cons c cs => exact absurd h (Nat.succ_ne_zero _)

/-- A mode failure aborts the whole load with that error. -/
theorem load_mode_error (env : String → String) (e : String)
    (h : loadMode (env "MODE") = .error e) :
    LoadConfiguration env = (none, some e) := by
  unfold LoadConfiguration
  rw [h]

/-- A network failure (after a valid mode) aborts the whole load. -/
theorem load_network_error (env : String → String) (m : Mode) (e : String)
    (hm : loadMode (env "MODE") = .ok m)
    (h : loadNetwork (env "NETWORK") = .error e) :
    LoadConfiguration env = (none, some e) := by
  unfold LoadConfiguration
  rw [hm, h]

/-- An admin-skip failure (after valid mode and network) aborts the load. -/
theorem load_skip_error (env : String → String) (m : Mode)
    (ngca : NetworkIdentifier × Option BlockIdentifier × ChainConfig × String)
    (e : String)
    (hm : loadMode (env "MODE") = .ok m)
    (hn : loadNetwork (env "NETWORK") = .ok ngca)
    (h : loadSkipGoQuaiAdmin (env "SKIP_GO_QUAI_ADMIN") = .error e) :
    LoadConfiguration env = (none, some e) := by
  unfold LoadConfiguration
  rw [hm, hn, h]

/-- A port failure (after all earlier blocks pass) aborts the load. -/
theorem load_port_error (env : String → String) (m : Mode)
    (ngca : NetworkIdentifier × Option BlockIdentifier × ChainConfig × String)
    (sk : Bool) (e : String)
    (hm : loadMode (env "MODE") = .ok m)
    (hn : loadNetwork (env "NETWORK") = .ok ngca)
    (hs : loadSkipGoQuaiAdmin (env "SKIP_GO_QUAI_ADMIN") = .ok sk)
    (h : loadPort (env "PORT") = .error e) :
    LoadConfiguration env = (none, some e) := by
  unfold LoadConfiguration
  rw [hm, hn, hs, h]

/-- When every block passes, the load returns exactly the assembled
configuration and no error. -/
theorem load_ok (env : String → String) (m : Mode)
    (n : NetworkIdentifier) (g : Option BlockIdentifier) (cp : ChainConfig)
    (a : String) (sk : Bool) (p : Int)
    (hm : loadMode (env "MODE") = .ok m)
    (hn : loadNetwork (env "NETWORK") = .ok (n, g, cp, a))
    (hs : loadSkipGoQuaiAdmin (env "SKIP_GO_QUAI_ADMIN") = .ok sk)
    (hp : loadPort (env "PORT") = .ok p) :
    LoadConfiguration env =
      (some ⟨m, n, g, (resolveGoQuaiURL (env "GOQUAI")).2,
        (resolveGoQuaiURL (env "GOQUAI")).1, p, a, sk, cp⟩, none) := by
  unfold LoadConfiguration
  rw [hm, hn, hs, hp]

/-- `strconv.ParseBool` succeeds only on its twelve literal tokens. -/
theorem goParseBool_ok_cases (v : String) (b : Bool)
    (h : goParseBool v = .ok b) :
    v = "1" ∨ v = "t" ∨ v = "T" ∨ v = "TRUE" ∨ v = "true" ∨ v = "True" ∨
    v = "0" ∨ v = "f" ∨ v = "F" ∨ v = "FALSE" ∨ v = "false" ∨ v = "False" := by
  unfold goParseBool at h
  split at h <;> simp_all

/-- A value accepted by `strconv.ParseBool` is accepted by the admin-skip
block with the same result. -/
theorem loadSkip_of_parse (v : String) (b : Bool) (hb : goParseBool v = .ok b) :
    loadSkipGoQuaiAdmin v = .ok b := by
  unfold loadSkipGoQuaiAdmin
  split_ifs with h
  · rw [hb]
  · exfalso
    rcases goParseBool_ok_cases v b hb with
      h1 | h1 | h1 | h1 | h1 | h1 | h1 | h1 | h1 | h1 | h1 | h1 <;>
      subst h1 <;> exact absurd h (by decide)

/-- The port block succeeds exactly on strings `Atoi` maps to a strictly
positive integer, and then yields that integer. -/
theorem loadPort_ok_iff (v : String) (p : Int) :
    loadPort v = .ok p ↔ goAtoi v = .ok p ∧ 0 < p := by
  constructor
  · intro h
    unfold loadPort at h
    split_ifs at h with h1
    cases ha : goAtoi v with
    | error e => rw [ha] at h; simp at h
    | ok q =>
      rw [ha] at h
      simp only [] at h
      split_ifs at h with h2
      injection h with h3
      subst h3
      exact ⟨rfl, by omega⟩
  · rintro ⟨ha, hp⟩
    unfold loadPort
    split_ifs with h1
    · exfalso
      have hv := string_eq_empty_of_length v h1
      subst hv
      simp [goAtoi] at ha
    · rw [ha]
      simp [show ¬ p ≤ 0 from by omega]

/-- Inversion: a load that produced a configuration had every block
succeed on exactly that configuration's fields, and reported no error. -/
theorem load_inversion (env : String → String) (c : Configuration)
    (h : (LoadConfiguration env).1 = some c) :
    LoadConfiguration env = (some c, none) ∧
    loadMode (env "MODE") = .ok c.mode ∧
    loadNetwork (env "NETWORK") =
      .ok (c.network, c.genesisBlockIdentifier, c.params, c.goQuaiArguments) ∧
    loadSkipGoQuaiAdmin (env "SKIP_GO_QUAI_ADMIN") = .ok c.skipGoQuaiAdmin ∧
    loadPort (env "PORT") = .ok c.port ∧
    c.remoteGoQuai = (resolveGoQuaiURL (env "GOQUAI")).1 ∧
    c.goQuaiURL = (resolveGoQuaiURL (env "GOQUAI")).2 := by
  unfold LoadConfiguration at h
  cases hm : loadMode (env "MODE") with
  | error e => rw [hm] at h; simp at h
  | ok m =>
    rw [hm] at h
    cases hn : loadNetwork (env "NETWORK") with
    | error e => rw [hn] at h; simp at h
    | ok t =>
      obtain ⟨n, g, cp, a⟩ := t
      rw [hn] at h
      cases hs : loadSkipGoQuaiAdmin (env "SKIP_GO_QUAI_ADMIN") with
      | error e => rw [hs] at h; simp at h
      | ok sk =>
        rw [hs] at h
        cases hp : loadPort (env "PORT") with
        | error e => rw [hp] at h; simp at h
        | ok p =>
          rw [hp] at h
          simp only [] at h
          injection h with h1
          subst h1
          exact ⟨load_ok env m n g cp a sk p hm hn hs hp, rfl, rfl, rfl, rfl, rfl, rfl⟩

/-- A string has positive length exactly when it is non-empty. -/
theorem string_pos_length_iff (s : String) : 0 < s.length ↔ s ≠ "" := by
  constructor
  · intro h he
    subst he
    exact absurd h (by decide)
  · intro h
    rcases Nat.eq_zero_or_pos s.length with h0 | hp
    · exact absurd (string_eq_empty_of_length s h0) h
    · exact hp

/-- The error text `strconv.ParseBool` produces is its syntax message. -/
theorem goParseBool_error_msg (v : String) (e : String)
    (h : goParseBool v = .error e) :
    e = "strconv.ParseBool: parsing \"" ++ v ++ "\": invalid syntax" := by
  unfold goParseBool at h
  split at h <;> simp_all

/-- A non-empty admin-skip value rejected by `strconv.ParseBool` makes the
admin-skip block abort with the wrapped message. -/
theorem loadSkip_error_of_parse (v e : String) (hv : v ≠ "")
    (h : goParseBool v = .error e) :
    loadSkipGoQuaiAdmin v = .error (e ++ ": unable to parse SKIP_GO_QUAI_ADMIN " ++ v) := by
  unfold loadSkipGoQuaiAdmin
  rw [if_pos ((string_pos_length_iff v).mpr hv), h]

/-- A non-empty port value rejected by `strconv.Atoi` makes the port block
abort with the wrapped message. -/
theorem loadPort_atoi_error (v e : String) (hv : v ≠ "")
    (ha : goAtoi v = .error e) :
    loadPort v = .error (e ++ ": unable to parse port " ++ v) := by
  unfold loadPort
  rw [if_neg (by
    intro h0
    exact hv (string_eq_empty_of_length v h0)), ha]

/-- A port value parsed to a non-positive integer makes the port block
abort with the nil-wrapping message. -/
theorem loadPort_nonpos (v : String) (p : Int)
    (ha : goAtoi v = .ok p) (hp : p ≤ 0) :
    loadPort v = .error ("%!w(<nil>): unable to parse port " ++ v) := by
  unfold loadPort
  rw [if_neg (by
    intro h0
    have hv := string_eq_empty_of_length v h0
    subst hv
    simp [goAtoi] at ha), ha]
  simp [hp]

/-- A parse function used to exercise the checksum wrapper on concrete
inputs: accepts exactly the string "good". -/
def parseStub : String → Location → Except String MixedcaseAddress :=
  fun a _ => if a = "good" then .ok ⟨⟨[1]⟩, a⟩ else .error "invalid"

/-! ### Claim theorems -/

/-- Claim C2: LoadConfiguration validates fields in the fixed order mode,
network, node-URL override, admin-skip flag, port, and returns on the
first failing field: with everything empty the error names MODE; with
only MODE valid it names NETWORK; with MODE and NETWORK valid but PORT
empty it names PORT; an invalid mode masks an invalid network; an invalid
network masks an invalid port; an invalid admin-skip flag masks an
invalid port. -/
theorem load_error_precedence :
    LoadConfiguration (baseEnv "" "" "" "" "") =
      (none, some "MODE must be populated") ∧
    LoadConfiguration (baseEnv "ONLINE" "" "" "" "") =
      (none, some "NETWORK must be populated") ∧
    LoadConfiguration (baseEnv "ONLINE" "MAINNET" "" "" "") =
      (none, some "PORT must be populated") ∧
    LoadConfiguration (baseEnv "bad" "nope" "" "zz" "xx") =
      (none, some "bad is not a valid mode") ∧
    LoadConfiguration (baseEnv "ONLINE" "nope" "" "zz" "xx") =
      (none, some "nope is not a valid network") ∧
    LoadConfiguration (baseEnv "ONLINE" "MAINNET" "" "zz" "xx") =
      (none, some
        "strconv.ParseBool: parsing \"zz\": invalid syntax: unable to parse SKIP_GO_QUAI_ADMIN zz") ∧
    LoadConfiguration (baseEnv "ONLINE" "MAINNET" "" "" "xx") =
      (none, some
        "strconv.Atoi: parsing \"xx\": invalid syntax: unable to parse port xx") :=
  ⟨rfl, rfl, rfl, rfl, rfl, rfl, rfl⟩

/-- Claim C7: LoadConfiguration is all-or-nothing — whenever it returns a
configuration the error is absent, and whenever it returns an error the
configuration is absent. -/
theorem load_all_or_nothing (env : String → String) :
    ((LoadConfiguration env).1.isSome → (LoadConfiguration env).2 = none) ∧
    ((LoadConfiguration env).2.isSome → (LoadConfiguration env).1 = none) := by
  unfold LoadConfiguration
  cases hm : loadMode (env "MODE") with
  | error e => simp
  | ok m =>
    cases hn : loadNetwork (env "NETWORK") with
    | error e => simp
    | ok t =>
      obtain ⟨n, g, cp, a⟩ := t
      cases hs : loadSkipGoQuaiAdmin (env "SKIP_GO_QUAI_ADMIN") with
      | error e => simp
      | ok sk =>
        cases hp : loadPort (env "PORT") with
        | error e => simp
        | ok p => simp

/-- Witness for C7 at two concrete environments: a successful load carries
no error, and a failed load carries no configuration. -/
theorem load_all_or_nothing_witness :
    (LoadConfiguration (baseEnv "ONLINE" "ORCHARD" "" "" "9")).2 = none ∧
    (LoadConfiguration (baseEnv "" "" "" "" "")).1 = none :=
  ⟨(load_all_or_nothing (baseEnv "ONLINE" "ORCHARD" "" "" "9")).1 rfl,
   (load_all_or_nothing (baseEnv "" "" "" "" "")).2 rfl⟩

/-- Claim C8: LoadConfiguration is deterministic in the environment
snapshot — it reads only the five named variables, so two invocations on
environments agreeing on those five return equal results (in particular,
two invocations on one unchanged snapshot return equal results). -/
theorem load_deterministic (env1 env2 : String → String)
    (h1 : env1 "MODE" = env2 "MODE")
    (h2 : env1 "NETWORK" = env2 "NETWORK")
    (h3 : env1 "GOQUAI" = env2 "GOQUAI")
    (h4 : env1 "SKIP_GO_QUAI_ADMIN" = env2 "SKIP_GO_QUAI_ADMIN")
    (h5 : env1 "PORT" = env2 "PORT") :
    LoadConfiguration env1 = LoadConfiguration env2 := by
  unfold LoadConfiguration
  rw [h1, h2, h3, h4, h5]

/-- Witness for C8: two concrete environments differing only in an
unrelated variable load identically. -/
theorem load_deterministic_witness :
    LoadConfiguration (baseEnv "ONLINE" "LOCAL" "" "" "42") =
      LoadConfiguration
        (fun name =>
          if name = "EXTRA" then "ignored"
          else baseEnv "ONLINE" "LOCAL" "" "" "42" name) :=
  load_deterministic _ _ rfl rfl rfl rfl rfl

/-- Claim C9: every successful load returns a network identifier whose
blockchain component is the single constant blockchain name
(`ethereum.Blockchain`), whichever network was selected. -/
theorem load_blockchain_constant (env : String → String) (c : Configuration)
    (h : (LoadConfiguration env).1 = some c) :
    c.network.blockchain = Blockchain := by
  obtain ⟨-, -, hn, -⟩ := load_inversion env c h
  unfold loadNetwork at hn
  split_ifs at hn <;>
    (simp only [Except.ok.injEq, Prod.mk.injEq] at hn; rw [← hn.1])

/-- Witness for C9 at a concrete successful ORCHARD load. -/
theorem load_blockchain_constant_witness :
    (⟨.online, ⟨Blockchain, OrchardNetwork⟩, OrchardGenesisBlockIdentifier,
      DefaultGoQuaiURL, false, 9, OrchardGoQuaiArguments, false,
      .progpowOrchard⟩ : Configuration).network.blockchain = Blockchain :=
  load_blockchain_constant (baseEnv "ONLINE" "ORCHARD" "" "" "9") _ rfl

/-- Claim C10: when `ChecksumAddress` reports failure it returns exactly
the zero address; it reports success iff the underlying mixed-case parse
succeeds; and `MustChecksum`, when it returns, returns the same address
that `ChecksumAddress` returns with ok = true. -/
theorem checksum_address_contract
    (parse : String → Location → Except String MixedcaseAddress)
    (address : String) (location : Location) :
    ((ChecksumAddress parse address location).2 = false →
      (ChecksumAddress parse address location).1 = Address.zero) ∧
    ((ChecksumAddress parse address location).2 = true ↔
      ∃ m, parse address location = .ok m) ∧
    (∀ a, MustChecksum parse address location = some a →
      ChecksumAddress parse address location = (a, true)) := by
  cases hp : parse address location with
  | error e => simp [ChecksumAddress, MustChecksum, hp]
  | ok m => simp [ChecksumAddress, MustChecksum, hp]

/-- Witness for C10 at a concrete parse function and inputs. -/
theorem checksum_address_contract_witness :
    (ChecksumAddress parseStub "bad" ⟨[]⟩).1 = Address.zero ∧
    (ChecksumAddress parseStub "good" ⟨[]⟩).2 = true ∧
    ChecksumAddress parseStub "good" ⟨[]⟩ = (⟨[1]⟩, true) :=
  ⟨(checksum_address_contract parseStub "bad" ⟨[]⟩).1 rfl,
   (checksum_address_contract parseStub "good" ⟨[]⟩).2.1.mpr ⟨⟨⟨[1]⟩, "good"⟩, rfl⟩,
   (checksum_address_contract parseStub "good" ⟨[]⟩).2.2 ⟨[1]⟩ rfl⟩

/-- Claim C3: in any environment whose earlier fields all pass, an empty
PORT is a "PORT must be populated" error; a non-empty PORT that `Atoi`
rejects is an "unable to parse port" error carrying the raw text; a PORT
parsing to a non-positive integer is likewise an "unable to parse port"
error carrying the raw text; and a PORT parsing to a strictly positive
integer makes the load succeed with exactly that port. -/
theorem load_port_validation (env : String → String) (m : Mode)
    (t : NetworkIdentifier × Option BlockIdentifier × ChainConfig × String)
    (sk : Bool)
    (hm : loadMode (env "MODE") = .ok m)
    (hn : loadNetwork (env "NETWORK") = .ok t)
    (hs : loadSkipGoQuaiAdmin (env "SKIP_GO_QUAI_ADMIN") = .ok sk) :
    (env "PORT" = "" →
      LoadConfiguration env = (none, some "PORT must be populated")) ∧
    (∀ e, env "PORT" ≠ "" → goAtoi (env "PORT") = .error e →
      LoadConfiguration env =
        (none, some (e ++ ": unable to parse port " ++ env "PORT"))) ∧
    (∀ p, goAtoi (env "PORT") = .ok p → p ≤ 0 →
      LoadConfiguration env =
        (none, some ("%!w(<nil>): unable to parse port " ++ env "PORT"))) ∧
    (∀ p, goAtoi (env "PORT") = .ok p → 0 < p →
      ∃ c, LoadConfiguration env = (some c, none) ∧ c.port = p) := by
  obtain ⟨n, g, cp, a⟩ := t
  refine ⟨?_, ?_, ?_, ?_⟩
  · intro hempty
    exact load_port_error env m _ sk _ hm hn hs (by rw [hempty]; rfl)
  · intro e hne ha
    exact load_port_error env m _ sk _ hm hn hs (loadPort_atoi_error _ e hne ha)
  · intro p ha hp
    exact load_port_error env m _ sk _ hm hn hs (loadPort_nonpos _ p ha hp)
  · intro p ha hp
    exact ⟨_, load_ok env m n g cp a sk p hm hn hs
      ((loadPort_ok_iff _ p).mpr ⟨ha, hp⟩), rfl⟩

/-- Witness for C3: with valid mode, network and admin flag and
PORT="1000", the load succeeds with port 1000. -/
theorem load_port_validation_witness :
    ∃ c, LoadConfiguration (baseEnv "ONLINE" "MAINNET" "" "" "1000") =
      (some c, none) ∧ c.port = 1000 :=
  (load_port_validation (baseEnv "ONLINE" "MAINNET" "" "" "1000") .online
    (⟨Blockchain, MainnetNetwork⟩, MainnetGenesisBlockIdentifier,
      .progpowColosseum, MainnetGoQuaiArguments)
    false rfl rfl rfl).2.2.2 1000 rfl (by decide)

/-- Claim C5: an empty MODE aborts with "MODE must be populated"; a
non-empty MODE other than the exact strings "ONLINE"/"OFFLINE" aborts
with an error carrying the raw value and "is not a valid mode"; and on
any successful load the mode is Online iff MODE was exactly "ONLINE" and
Offline iff it was exactly "OFFLINE". -/
theorem load_mode_validation (env : String → String) :
    (env "MODE" = "" →
      LoadConfiguration env = (none, some "MODE must be populated")) ∧
    (env "MODE" ≠ "" → env "MODE" ≠ "ONLINE" → env "MODE" ≠ "OFFLINE" →
      LoadConfiguration env =
        (none, some (env "MODE" ++ " is not a valid mode"))) ∧
    (∀ c, (LoadConfiguration env).1 = some c →
      (c.mode = .online ↔ env "MODE" = "ONLINE") ∧
      (c.mode = .offline ↔ env "MODE" = "OFFLINE")) := by
  refine ⟨?_, ?_, ?_⟩
  · intro h
    apply load_mode_error
    rw [h]
    rfl
  · intro h1 h2 h3
    apply load_mode_error
    unfold loadMode
    rw [if_neg h2, if_neg h3, if_neg h1]
  · intro c h
    obtain ⟨-, hm, -⟩ := load_inversion env c h
    unfold loadMode at hm
    split_ifs at hm with a b
    · injection hm with h'
      rw [← h', a]
      decide
    · injection hm with h'
      rw [← h', b]
      decide

/-- Witness for C5: a concrete invalid mode is rejected with the raw value
in the message. -/
theorem load_mode_validation_witness :
    LoadConfiguration (baseEnv "bad" "LOCAL" "" "" "7") =
      (none, some "bad is not a valid mode") :=
  (load_mode_validation (baseEnv "bad" "LOCAL" "" "" "7")).2.1
    (by decide) (by decide) (by decide)

/-- Claim C6: on every successful load, a non-empty GOQUAI value is taken
verbatim as the node URL with remoteGoQuai true; an empty GOQUAI yields
the default local endpoint with remoteGoQuai false; remoteGoQuai is true
iff GOQUAI was non-empty; and GOQUAI has no failure mode — any
environment agreeing on the other four variables also loads
successfully, whatever its GOQUAI value. -/
theorem load_goquai_override (env env2 : String → String) (c : Configuration)
    (h : (LoadConfiguration env).1 = some c)
    (e1 : env2 "MODE" = env "MODE")
    (e2 : env2 "NETWORK" = env "NETWORK")
    (e3 : env2 "SKIP_GO_QUAI_ADMIN" = env "SKIP_GO_QUAI_ADMIN")
    (e4 : env2 "PORT" = env "PORT") :
    (env "GOQUAI" ≠ "" → c.goQuaiURL = env "GOQUAI" ∧ c.remoteGoQuai = true) ∧
    (env "GOQUAI" = "" →
      c.goQuaiURL = DefaultGoQuaiURL ∧ c.remoteGoQuai = false) ∧
    (c.remoteGoQuai = true ↔ env "GOQUAI" ≠ "") ∧
    (∃ c2, (LoadConfiguration env2).1 = some c2) := by
  obtain ⟨hfull, hm, hn, hs, hp, hr, hu⟩ := load_inversion env c h
  refine ⟨?_, ?_, ⟨?_, ?_⟩, ?_⟩
  · intro hne
    have hl : 0 < (env "GOQUAI").length := (string_pos_length_iff _).mpr hne
    unfold resolveGoQuaiURL at hr hu
    rw [if_pos hl] at hr hu
    exact ⟨hu, hr⟩
  · intro he
    have hl : ¬ 0 < (env "GOQUAI").length := by rw [he]; decide
    unfold resolveGoQuaiURL at hr hu
    rw [if_neg hl] at hr hu
    exact ⟨hu, hr⟩
  · intro ht he
    rw [he] at hr
    unfold resolveGoQuaiURL at hr
    rw [if_neg (by decide)] at hr
    rw [ht] at hr
    cases hr
  · intro hne
    have hl := (string_pos_length_iff (env "GOQUAI")).mpr hne
    unfold resolveGoQuaiURL at hr
    rw [if_pos hl] at hr
    exact hr
  · exact ⟨_, by
      rw [load_ok env2 c.mode c.network c.genesisBlockIdentifier c.params
        c.goQuaiArguments c.skipGoQuaiAdmin c.port
        (by rw [e1]; exact hm) (by rw [e2]; exact hn)
        (by rw [e3]; exact hs) (by rw [e4]; exact hp)]⟩

/-- Witness for C6: a concrete successful load without GOQUAI, compared
with the same environment overridden by GOQUAI="http://blah", which also
succeeds. -/
theorem load_goquai_override_witness :
    ∃ c2, (LoadConfiguration
      (baseEnv "OFFLINE" "LOCAL" "http://blah" "" "7")).1 = some c2 :=
  (load_goquai_override (baseEnv "OFFLINE" "LOCAL" "" "" "7")
    (baseEnv "OFFLINE" "LOCAL" "http://blah" "" "7")
    ⟨.offline, ⟨Blockchain, DevNetwork⟩, none, DefaultGoQuaiURL, false, 7,
      LocalGoQuaiArguments, false, .progpowLocal⟩
    rfl rfl rfl rfl rfl).2.2.2

/-- Counterexample to C1 as stated: an environment with a valid MODE, a
valid NETWORK and a PORT parsing to a strictly positive integer on which
LoadConfiguration nevertheless fails, because SKIP_GO_QUAI_ADMIN holds an
unparseable boolean. -/
theorem load_valid_triple_not_sufficient :
    (baseEnv "ONLINE" "MAINNET" "" "bad" "1000") "MODE" = "ONLINE" ∧
    (baseEnv "ONLINE" "MAINNET" "" "bad" "1000") "NETWORK" = "MAINNET" ∧
    goAtoi ((baseEnv "ONLINE" "MAINNET" "" "bad" "1000") "PORT") = .ok 1000 ∧
    (0 : Int) < 1000 ∧
    (LoadConfiguration (baseEnv "ONLINE" "MAINNET" "" "bad" "1000")).1 = none :=
  ⟨rfl, rfl, rfl, by decide, rfl⟩

/-- Claim C1 (amended: the environment must additionally carry an empty or
parseable SKIP_GO_QUAI_ADMIN): for every environment where MODE is
"ONLINE" or "OFFLINE", NETWORK is one of "MAINNET"/"ORCHARD"/"LOCAL",
PORT parses as a strictly positive base-10 integer, and
SKIP_GO_QUAI_ADMIN is empty or a valid boolean token, LoadConfiguration
succeeds and the returned configuration's chain parameters, genesis block
identifier and node-launch arguments exactly equal the static table entry
for that network; LOCAL yields a null genesis identifier while MAINNET
and ORCHARD yield non-null identifiers distinct from each other. -/
theorem load_table_resolution (env : String → String)
    (hm : env "MODE" = "ONLINE" ∨ env "MODE" = "OFFLINE")
    (hn : env "NETWORK" = "MAINNET" ∨ env "NETWORK" = "ORCHARD" ∨
      env "NETWORK" = "LOCAL")
    (hp : ∃ p, goAtoi (env "PORT") = .ok p ∧ 0 < p)
    (hs : env "SKIP_GO_QUAI_ADMIN" = "" ∨
      ∃ b, goParseBool (env "SKIP_GO_QUAI_ADMIN") = .ok b) :
    ∃ c, LoadConfiguration env = (some c, none) ∧
      (env "NETWORK" = "MAINNET" →
        c.network = ⟨Blockchain, MainnetNetwork⟩ ∧
        c.genesisBlockIdentifier = MainnetGenesisBlockIdentifier ∧
        c.params = ChainConfig.progpowColosseum ∧
        c.goQuaiArguments = MainnetGoQuaiArguments) ∧
      (env "NETWORK" = "ORCHARD" →
        c.network = ⟨Blockchain, OrchardNetwork⟩ ∧
        c.genesisBlockIdentifier = OrchardGenesisBlockIdentifier ∧
        c.params = ChainConfig.progpowOrchard ∧
        c.goQuaiArguments = OrchardGoQuaiArguments) ∧
      (env "NETWORK" = "LOCAL" →
        c.network = ⟨Blockchain, DevNetwork⟩ ∧
        c.genesisBlockIdentifier = none ∧
        c.params = ChainConfig.progpowLocal ∧
        c.goQuaiArguments = LocalGoQuaiArguments) ∧
      MainnetGenesisBlockIdentifier.isSome = true ∧
      OrchardGenesisBlockIdentifier.isSome = true ∧
      MainnetGenesisBlockIdentifier ≠ OrchardGenesisBlockIdentifier := by
  obtain ⟨p, hap, hpp⟩ := hp
  have hport : loadPort (env "PORT") = .ok p := (loadPort_ok_iff _ p).mpr ⟨hap, hpp⟩
  have hskip : ∃ b, loadSkipGoQuaiAdmin (env "SKIP_GO_QUAI_ADMIN") = .ok b := by
    rcases hs with he | ⟨b, hb⟩
    · exact ⟨false, by rw [he]; rfl⟩
    · exact ⟨b, loadSkip_of_parse _ b hb⟩
  obtain ⟨sk, hskip⟩ := hskip
  have hmode : ∃ m, loadMode (env "MODE") = .ok m := by
    rcases hm with h | h
    · exact ⟨.online, by rw [h]; rfl⟩
    · exact ⟨.offline, by rw [h]; rfl⟩
  obtain ⟨m, hmode⟩ := hmode
  rcases hn with h | h | h
  · refine ⟨_, load_ok env m ⟨Blockchain, MainnetNetwork⟩
      MainnetGenesisBlockIdentifier ChainConfig.progpowColosseum
      MainnetGoQuaiArguments sk p hmode (by rw [h]; rfl) hskip hport,
      ?_, ?_, ?_, rfl, rfl, by decide⟩
    · intro _
      exact ⟨rfl, rfl, rfl, rfl⟩
    · intro habs
      rw [h] at habs
      exact absurd habs (by decide)
    · intro habs
      rw [h] at habs
      exact absurd habs (by decide)
  · refine ⟨_, load_ok env m ⟨Blockchain, OrchardNetwork⟩
      OrchardGenesisBlockIdentifier ChainConfig.progpowOrchard
      OrchardGoQuaiArguments sk p hmode (by rw [h]; rfl) hskip hport,
      ?_, ?_, ?_, rfl, rfl, by decide⟩
    · intro habs
      rw [h] at habs
      exact absurd habs (by decide)
    · intro _
      exact ⟨rfl, rfl, rfl, rfl⟩
    · intro habs
      rw [h] at habs
      exact absurd habs (by decide)
  · refine ⟨_, load_ok env m ⟨Blockchain, DevNetwork⟩
      none ChainConfig.progpowLocal
      LocalGoQuaiArguments sk p hmode (by rw [h]; rfl) hskip hport,
      ?_, ?_, ?_, rfl, rfl, by decide⟩
    · intro habs
      rw [h] at habs
      exact absurd habs (by decide)
    · intro habs
      rw [h] at habs
      exact absurd habs (by decide)
    · intro _
      exact ⟨rfl, rfl, rfl, rfl⟩

/-- Witness for C1 at a concrete valid environment (OFFLINE, ORCHARD,
SKIP_GO_QUAI_ADMIN="TRUE", PORT="1000"). -/
theorem load_table_resolution_witness :
    ∃ c, LoadConfiguration (baseEnv "OFFLINE" "ORCHARD" "" "TRUE" "1000") =
      (some c, none) ∧
      c.genesisBlockIdentifier = OrchardGenesisBlockIdentifier := by
  obtain ⟨c, hc, -, horc, -⟩ :=
    load_table_resolution (baseEnv "OFFLINE" "ORCHARD" "" "TRUE" "1000")
      (Or.inr rfl) (Or.inr (Or.inl rfl)) ⟨1000, rfl, by decide⟩
      (Or.inr ⟨true, rfl⟩)
  exact ⟨c, hc, (horc rfl).2.1⟩

/-- Counterexample to C4 as stated: "tRUE" is a case variant of the
canonical token "true" (its lowercasing is "true"), yet the loader
rejects it — boolean parsing is not case-insensitive. -/
theorem skip_admin_not_case_insensitive :
    "tRUE".data.map Char.toLower = "true".data ∧
    LoadConfiguration (baseEnv "ONLINE" "MAINNET" "" "tRUE" "1000") =
      (none, some
        "strconv.ParseBool: parsing \"tRUE\": invalid syntax: unable to parse SKIP_GO_QUAI_ADMIN tRUE") :=
  ⟨rfl, rfl⟩

/-- Claim C4 (amended: SKIP_GO_QUAI_ADMIN accepts exactly the twelve Go
boolean tokens "1","t","T","TRUE","true","True","0","f","F","FALSE",
"false","False", not arbitrary case variants): when empty the flag
defaults to false; a value accepted by the boolean parse yields exactly
that boolean; and every other non-empty value fails the load with a parse
error for this field. -/
theorem skip_admin_token_validation (v : String) :
    ((∃ b, goParseBool v = .ok b) ↔
      (v = "1" ∨ v = "t" ∨ v = "T" ∨ v = "TRUE" ∨ v = "true" ∨ v = "True" ∨
       v = "0" ∨ v = "f" ∨ v = "F" ∨ v = "FALSE" ∨ v = "false" ∨
       v = "False")) ∧
    (v = "" →
      ∃ c, LoadConfiguration (baseEnv "ONLINE" "MAINNET" "" v "1000") =
        (some c, none) ∧ c.skipGoQuaiAdmin = false) ∧
    (∀ b, goParseBool v = .ok b →
      ∃ c, LoadConfiguration (baseEnv "ONLINE" "MAINNET" "" v "1000") =
        (some c, none) ∧ c.skipGoQuaiAdmin = b) ∧
    (v ≠ "" → (∀ b, goParseBool v ≠ .ok b) →
      LoadConfiguration (baseEnv "ONLINE" "MAINNET" "" v "1000") =
        (none, some (("strconv.ParseBool: parsing \"" ++ v ++
          "\": invalid syntax") ++
          ": unable to parse SKIP_GO_QUAI_ADMIN " ++ v))) := by
  refine ⟨⟨?_, ?_⟩, ?_, ?_, ?_⟩
  · rintro ⟨b, hb⟩
    exact goParseBool_ok_cases v b hb
  · intro h
    rcases h with h | h | h | h | h | h | h | h | h | h | h | h <;> subst h
    · exact ⟨true, rfl⟩
    · exact ⟨true, rfl⟩
    · exact ⟨true, rfl⟩
    · exact ⟨true, rfl⟩
    · exact ⟨true, rfl⟩
    · exact ⟨true, rfl⟩
    · exact ⟨false, rfl⟩
    · exact ⟨false, rfl⟩
    · exact ⟨false, rfl⟩
    · exact ⟨false, rfl⟩
    · exact ⟨false, rfl⟩
    · exact ⟨false, rfl⟩
  · intro h
    subst h
    exact ⟨_, rfl, rfl⟩
  · intro b hb
    exact ⟨_, load_ok (baseEnv "ONLINE" "MAINNET" "" v "1000") .online
      ⟨Blockchain, MainnetNetwork⟩ MainnetGenesisBlockIdentifier
      ChainConfig.progpowColosseum MainnetGoQuaiArguments b 1000
      rfl rfl (loadSkip_of_parse v b hb) rfl, rfl⟩
  · intro hne hnok
    cases hgb : goParseBool v with
    | ok b => exact absurd hgb (hnok b)
    | error e =>
      have hmsg := goParseBool_error_msg v e hgb
      subst hmsg
      exact load_skip_error (baseEnv "ONLINE" "MAINNET" "" v "1000") .online
        (⟨Blockchain, MainnetNetwork⟩, MainnetGenesisBlockIdentifier,
          ChainConfig.progpowColosseum, MainnetGoQuaiArguments) _
        rfl rfl (loadSkip_error_of_parse v _ hne hgb)

/-- Witness for C4: the accepted token "True" yields a successful load
with the flag set. -/
theorem skip_admin_token_validation_witness :
    ∃ c, LoadConfiguration (baseEnv "ONLINE" "MAINNET" "" "True" "1000") =
      (some c, none) ∧ c.skipGoQuaiAdmin = true :=
  (skip_admin_token_validation "True").2.2.1 true rfl

end MeshQuai
